import Mathlib

/-!
Shallow embedding of the kgs_otel observability middleware (Go) in Lean 4.

The repository instruments HTTP (gin) requests and gRPC calls with
OpenTelemetry spans and metrics.  We embed:

* the gRPC stats handler (`TagRPC` / `HandleRPC`, file stats_handler.go)
  as a pure transition function over per-call state emitting a trace of
  telemetry effects;
* the gin middleware (`Tracing`, file gintrace.go) as a pure function from
  a request/response observation to a trace of telemetry effects;
* the metric instrument names built in `newConfig` (config.go) and in
  `Tracing` (gintrace.go);
* the context-propagation codec (composite trace-context + baggage),
  whose implementation lives in packages not present in the extracted
  sources and is therefore modelled from the specification.

External collaborators (the OpenTelemetry SDK: tracer, meter, span
backend, zap logger) are represented by the effect alphabet: the
middleware's observable behaviour is the ordered list of calls it makes
into those backends.
-/

namespace KgsOtel

/-- An attribute value: the middleware only ever attaches string and
integer valued attributes. -/
inductive AttrValue where
  | str (s : String)
  | int (i : Int)
deriving DecidableEq

/-- A key/value attribute as attached to spans and metric samples. -/
structure Attr where
  key : String
  value : AttrValue
deriving DecidableEq

/-- OpenTelemetry span status codes (`go.opentelemetry.io/otel/codes`). -/
inductive SpanStatusCode where
  | unset
  | error
  | ok
deriving DecidableEq

/-- OpenTelemetry span kinds used by the middlewares. -/
inductive SpanKind where
  | server
  | client
deriving DecidableEq

namespace Grpc

/-- `Role` is a enum for setting the role of the instrumentation
(role.go). -/
inductive Role where
  | server
  | client
deriving DecidableEq

/-- `Role.String` (role.go): the name for the role. -/
def Role.string : Role → String
  | .server => "server"
  | .client => "client"

/-- `Role.isServer` (role.go). -/
def Role.isServer : Role → Bool
  | .server => true
  | .client => false

/-- gRPC status codes (`google.golang.org/grpc/codes`). -/
inductive GrpcCode where
  | ok
  | cancelled
  | unknown
  | invalidArgument
  | deadlineExceeded
  | notFound
  | alreadyExists
  | permissionDenied
  | resourceExhausted
  | failedPrecondition
  | aborted
  | outOfRange
  | unimplemented
  | internal
  | unavailable
  | dataLoss
  | unauthenticated
deriving DecidableEq

/-- Numeric value of a gRPC code (`codes.Code` is a uint32; OK = 0). -/
def GrpcCode.toInt : GrpcCode → Int
  | .ok => 0
  | .cancelled => 1
  | .unknown => 2
  | .invalidArgument => 3
  | .deadlineExceeded => 4
  | .notFound => 5
  | .alreadyExists => 6
  | .permissionDenied => 7
  | .resourceExhausted => 8
  | .failedPrecondition => 9
  | .aborted => 10
  | .outOfRange => 11
  | .unimplemented => 12
  | .internal => 13
  | .unavailable => 14
  | .dataLoss => 15
  | .unauthenticated => 16

/-- A gRPC status as produced by `status.FromError`: a code plus a
message. -/
structure GrpcStatus where
  code : GrpcCode
  message : String
deriving DecidableEq

/-- `serverStatus` (stats_handler.go): maps a gRPC status to a span
status code and message for the server side of a connection.  Unknown,
DeadlineExceeded, Unimplemented, Internal, Unavailable and DataLoss map
to Error with the gRPC message; every other code maps to Unset with an
empty message. -/
def serverStatus (grpcStatus : GrpcStatus) : SpanStatusCode × String :=
  match grpcStatus.code with
  | .unknown | .deadlineExceeded | .unimplemented | .internal
  | .unavailable | .dataLoss => (.error, grpcStatus.message)
  | _ => (.unset, "")

/-- The fixed set of server-side error codes listed in `serverStatus`. -/
def serverErrorCodes : List GrpcCode :=
  [.unknown, .deadlineExceeded, .unimplemented, .internal, .unavailable,
   .dataLoss]

/-- Name of the RPC duration histogram created in `newConfig`
(config.go): `"rpc." + role.String() + ".duration"`. -/
def rpcDurationName (role : Role) : String :=
  "rpc." ++ role.string ++ ".duration"

/-- Name of the RPC request-size histogram created in `newConfig`
(config.go). -/
def rpcRequestSizeName (role : Role) : String :=
  "rpc." ++ role.string ++ ".request.size"

/-- Name of the RPC response-size histogram created in `newConfig`
(config.go). -/
def rpcResponseSizeName (role : Role) : String :=
  "rpc." ++ role.string ++ ".response.size"

/-- Name of the requests-per-RPC histogram created in `newConfig`
(config.go). -/
def rpcRequestsPerRPCName (role : Role) : String :=
  "rpc." ++ role.string ++ ".requests_per_rpc"

/-- Name of the responses-per-RPC histogram created in `newConfig`
(config.go). -/
def rpcResponsesPerRPCName (role : Role) : String :=
  "rpc." ++ role.string ++ ".responses_per_rpc"

/-- `stats.RPCTagInfo`: the information the runtime hands to `TagRPC`. -/
structure RPCTagInfo where
  fullMethodName : String

/-- The per-call options of `config` (config.go) that influence the
stats handler's behaviour: the per-call filter and the extra span/metric
attributes.  Provider and propagator fields are external handles and
appear in the effect alphabet instead. -/
structure Config where
  Filter : Option (RPCTagInfo → Bool) := none
  SpanAttributes : List Attr := []
  MetricAttributes : List Attr := []

/-- `gRPCContext` (stats_handler.go): per-call auxiliary state attached
to the call's context at tag time. -/
structure GRPCContext where
  messagesReceived : Int
  messagesSent : Int
  metricAttrs : List Attr
  record : Bool
deriving DecidableEq

/-- `stats.RPCStats` events dispatched on by `HandleRPC`.  The
`outHeader` event carries the peer network name when `peer.FromContext`
succeeds; the `rpcEnd` event carries the begin/end timestamps (in
nanoseconds, as Go `time.Time` differences are) and the terminal
error. -/
inductive RPCStats where
  | begin
  | inPayload (length : Int)
  | outPayload (length : Int)
  | outTrailer
  | outHeader (peerNetwork : Option String)
  | rpcEnd (beginTime endTime : Int) (error : Option GrpcStatus)
deriving DecidableEq

/-- The calls the middleware makes into the telemetry backend. -/
inductive Effect where
  | propagatorExtract
  | propagatorInject
  | spanStart (name : String) (kind : SpanKind) (attrs : List Attr)
  | spanSetAttrs (attrs : List Attr)
  | spanSetStatus (code : SpanStatusCode) (msg : String)
  | spanEnd
  | recordInt (instrument : String) (value : Int) (attrs : List Attr)
  | recordRat (instrument : String) (value : ℚ) (attrs : List Attr)
deriving DecidableEq

/-- Modelled from the spec: `internal.ParseFullMethod` lives in package
`kgs/otel/internal`, which is not among the extracted sources.  Per the
spec the tag hook must "parse the method name into a span name plus RPC
attributes"; a full method `/service/method` yields the span name
`service/method` plus service and method attributes, anything else is
used as the span name unchanged with no attributes. -/
def parseFullMethod (fullMethod : String) : String × List Attr :=
  match fullMethod.splitOn "/" with
  | ["", service, method] =>
      (service ++ "/" ++ method,
       [⟨"rpc.service", .str service⟩, ⟨"rpc.method", .str method⟩])
  | _ => (fullMethod, [])

/-- Modelled from the spec: `semconvutil.NetTransport` lives in package
`kgs/otel/internal/semconvutil`, not among the extracted sources.  Per
the spec the header event must "attach a network-transport attribute to
the span". -/
def netTransportAttr (network : String) : Attr :=
  ⟨"net.transport", .str network⟩

/-- The record flag computed in `TagRPC` (stats_handler.go): it starts
`true` and, when a filter is configured, becomes the filter's verdict on
the tag info. -/
def recordFlag (cfg : Config) (info : RPCTagInfo) : Bool :=
  match cfg.Filter with
  | some f => f info
  | none => true

/-- `TagRPC` (stats_handler.go): extract the propagated context, start
one span for the call (server or client kind by role), build the
`gRPCContext` with a frozen metric-attribute snapshot and the filter
verdict, and (client role only) inject the context into the outgoing
carrier.  Returns the per-call state together with the emitted
effects. -/
def tagRPC (cfg : Config) (role : Role) (info : RPCTagInfo) :
    GRPCContext × List Effect :=
  let na := parseFullMethod info.fullMethodName
  let attrs := na.2 ++ [⟨"rpc.system", .str "grpc"⟩]
  let spanKind : SpanKind := if role.isServer then .server else .client
  let gctx : GRPCContext :=
    { messagesReceived := 0
      messagesSent := 0
      metricAttrs := attrs ++ cfg.MetricAttributes
      record := recordFlag cfg info }
  let effects :=
    [Effect.propagatorExtract,
     Effect.spanStart na.1 spanKind (attrs ++ cfg.SpanAttributes)] ++
    (if role.isServer then [] else [Effect.propagatorInject])
  (gctx, effects)

/-- The `rpcStatusAttr` computed in the `*stats.End` case of `HandleRPC`
(stats_handler.go): the gRPC status code of the terminal error, or OK
when the error is nil. -/
def endRpcStatusAttr (error : Option GrpcStatus) : Attr :=
  match error with
  | some s => ⟨"rpc.grpc.status_code", .int s.code.toInt⟩
  | none => ⟨"rpc.grpc.status_code", .int GrpcCode.ok.toInt⟩

/-- The span-status update in the `*stats.End` case of `HandleRPC`
(stats_handler.go): on a non-nil error, servers classify via
`serverStatus` while clients always set Error with the status message;
on a nil error no status call is made. -/
def endSpanStatusEffects (role : Role) (error : Option GrpcStatus) :
    List Effect :=
  match error with
  | some s =>
      if role.isServer then
        [Effect.spanSetStatus (serverStatus s).1 (serverStatus s).2]
      else
        [Effect.spanSetStatus .error s.message]
  | none => []

/-- The switch body of `HandleRPC` (stats_handler.go), reached when the
early `record` return did not fire.  `gctx` is the per-call state looked
up from the context (`none` when the context carries no `gRPCContext`),
`metricAttrs` the copy made from it (empty when `gctx` is `none`).
Mirrors the source case by case; note that the source contains no
counter increment on payload events (the `atomic.AddInt64` on
`messagesSent` is commented out and none exists for
`messagesReceived`). -/
def handleRPCSwitch (role : Role) (gctx : Option GRPCContext)
    (metricAttrs : List Attr) (rs : RPCStats) : List Effect :=
  match rs with
  | .begin => []
  | .inPayload len =>
      match gctx with
      | some _ => [Effect.recordInt (rpcRequestSizeName role) len metricAttrs]
      | none => []
  | .outPayload len =>
      match gctx with
      | some _ => [Effect.recordInt (rpcResponseSizeName role) len metricAttrs]
      | none => []
  | .outTrailer => []
  | .outHeader peerNetwork =>
      match peerNetwork with
      | some nw => [Effect.spanSetAttrs [netTransportAttr nw]]
      | none => []
  | .rpcEnd beginTime endTime error =>
      let rpcStatusAttr := endRpcStatusAttr error
      let metricAttrs2 := metricAttrs ++ [rpcStatusAttr]
      let elapsedTime : ℚ := ((endTime - beginTime : Int) : ℚ) / 1000000
      endSpanStatusEffects role error ++
      [Effect.spanSetAttrs [rpcStatusAttr],
       Effect.spanEnd,
       Effect.recordRat (rpcDurationName role) elapsedTime metricAttrs2] ++
      (match gctx with
       | some g =>
           [Effect.recordInt (rpcRequestsPerRPCName role)
              g.messagesReceived metricAttrs2,
            Effect.recordInt (rpcResponsesPerRPCName role)
              g.messagesSent metricAttrs2]
       | none => [])

/-- `HandleRPC` (stats_handler.go): look up the per-call state; if it is
present and its record flag is false, return immediately; otherwise run
the event switch.  Returns the (unchanged) per-call state and the
emitted effects. -/
def handleRPC (role : Role) (gctx : Option GRPCContext) (rs : RPCStats) :
    Option GRPCContext × List Effect :=
  match gctx with
  | some g =>
      if g.record then (some g, handleRPCSwitch role (some g) g.metricAttrs rs)
      else (some g, [])
  | none => (none, handleRPCSwitch role none [] rs)

/-- Fold `HandleRPC` over a sequence of events, threading the per-call
state and concatenating the effect traces. -/
def runHooks (role : Role) :
    Option GRPCContext → List RPCStats → List Effect
  | _, [] => []
  | gctx, rs :: rest =>
      let step := handleRPC role gctx rs
      step.2 ++ runHooks role step.1 rest

/-- One full call as the gRPC runtime drives it: `TagRPC` first, then
the `HandleRPC` events in order. -/
def runCall (cfg : Config) (role : Role) (info : RPCTagInfo)
    (events : List RPCStats) : List Effect :=
  let tag := tagRPC cfg role info
  tag.2 ++ runHooks role (some tag.1) events

/-- Number of `spanEnd` effects in a trace. -/
def countSpanEnd (es : List Effect) : Nat :=
  es.countP fun e =>
    match e with
    | .spanEnd => true
    | _ => false

/-- Number of `spanStart` effects in a trace. -/
def countSpanStart (es : List Effect) : Nat :=
  es.countP fun e =>
    match e with
    | .spanStart _ _ _ => true
    | _ => false

/-- Number of metric samples (of either value type) recorded against a
given instrument name. -/
def countSamples (instrument : String) (es : List Effect) : Nat :=
  es.countP fun e =>
    match e with
    | .recordInt i _ _ => i = instrument
    | .recordRat i _ _ => i = instrument
    | _ => false

/-- The integer sample values recorded against a given instrument
name, in order. -/
def intSamples (instrument : String) (es : List Effect) : List Int :=
  es.filterMap fun e =>
    match e with
    | .recordInt i v _ => if i = instrument then some v else none
    | _ => none

/-- Whether an event is the terminal `*stats.End` notification. -/
def isEndEvent : RPCStats → Bool
  | .rpcEnd _ _ _ => true
  | _ => false

/-- The record flag governing `HandleRPC`'s early return: false only
when a `gRPCContext` is attached and carries `record = false`. -/
def recordOf : Option GRPCContext → Bool
  | some g => g.record
  | none => true

/-- The RPC duration-histogram name as the spec's words claim it
(`{protocol}.{R}.request.duration`), for comparison with
`rpcDurationName`. -/
def specClaimedRpcDurationName (role : Role) : String :=
  "rpc." ++ role.string ++ ".request.duration"

/-- The RPC request-size instrument name as the spec's words claim it
(`{protocol}.{R}.request.body.size`), for comparison with
`rpcRequestSizeName`. -/
def specClaimedRpcRequestSizeName (role : Role) : String :=
  "rpc." ++ role.string ++ ".request.body.size"

/-- The RPC response-size instrument name as the spec's words claim it
(`{protocol}.{R}.response.body.size`), for comparison with
`rpcResponseSizeName`. -/
def specClaimedRpcResponseSizeName (role : Role) : String :=
  "rpc." ++ role.string ++ ".response.body.size"

end Grpc

namespace Gin

/-- The `role` constant of the gin middleware (gintrace.go): the HTTP
middleware is server-side only. -/
def ginRole : String := "server"

/-- Name of the HTTP request-duration histogram created in `Tracing`
(gintrace.go): `"http." + role + ".request.duration"`. -/
def httpReqDurationName : String := "http." ++ ginRole ++ ".request.duration"

/-- Name of the HTTP request-body-size up/down counter created in
`Tracing` (gintrace.go). -/
def httpReqSizeName : String := "http." ++ ginRole ++ ".request.body.size"

/-- Name of the HTTP response-body-size up/down counter created in
`Tracing` (gintrace.go). -/
def httpRespSizeName : String := "http." ++ ginRole ++ ".response.body.size"

/-- Name of the HTTP active-requests up/down counter created in
`Tracing` (gintrace.go). -/
def httpActiveReqsName : String := "http." ++ ginRole ++ ".active_requests"

/-- An inbound HTTP request as the middleware observes it: method,
header map (name to list of values, as Go `http.Header`) and the result
of reading the body (`io.ReadAll` may fail; success yields the byte
list). -/
structure HttpRequest where
  method : String
  headers : List (String × List String)
  bodyRead : Except String (List Nat)

/-- Whether the body read failed. -/
def HttpRequest.bodyReadFails (r : HttpRequest) : Bool :=
  match r.bodyRead with
  | .error _ => true
  | .ok _ => false

/-- A gin request context as one pass of the middleware observes it:
the request, the matched route (`c.FullPath()`, empty when no route
matched) and the post-handler observations the middleware reads after
`c.Next()` returns (`c.Writer.Status()`, `c.Writer.Size()`,
`c.Errors`). -/
structure GinContext where
  request : HttpRequest
  fullPath : String
  writerStatus : Int
  writerSize : Int
  ginErrors : List String

/-- The `config` record of option.go, restricted to the fields the
handler consults plus the `GinFilters` field.  The provider and
propagator fields are external handles represented in the effect
alphabet; the instrument fields are fixed by the names above. -/
structure Config where
  Filters : List (HttpRequest → Bool) := []
  GinFilters : List (GinContext → Bool) := []
  SpanNameFormatter : Option (HttpRequest → String) := none

/-- `WithFilter` (option.go): appends to the filter list. -/
def withFilter (f : List (HttpRequest → Bool)) (c : Config) : Config :=
  { c with Filters := c.Filters ++ f }

/-- `WithGinFilter` (option.go): appends to the gin-filter list. -/
def withGinFilter (f : List (GinContext → Bool)) (c : Config) : Config :=
  { c with GinFilters := c.GinFilters ++ f }

/-- `WithSpanNameFormatter` (option.go): sets the formatter. -/
def withSpanNameFormatter (f : HttpRequest → String) (c : Config) : Config :=
  { c with SpanNameFormatter := some f }

/-- The calls one middleware pass makes into gin and the telemetry
backend, in order. -/
inductive HEffect where
  | callNext
  | ctxSet (key : String)
  | propagatorExtract
  | spanStart (name : String) (attrs : List Attr)
  | spanSetStatus (code : SpanStatusCode) (msg : String)
  | spanSetAttrs (attrs : List Attr)
  | counterAdd (instrument : String) (value : Int) (attrs : List Attr)
  | histRecord (instrument : String) (value : ℚ) (attrs : List Attr)
  | abortWithStatusJSON (status : Int)
  | spanEnd
deriving DecidableEq

/-- Modelled from the spec: `semconvutil.HTTPServerRequest` lives in
package `kgs/otel/internal/semconvutil`, not among the extracted
sources.  Per the spec the attribute builder derives "semantic attribute
sets (method, route, status, network transport, payload sizes) from a
request description"; we keep the method and the service host name.  It
never emits an `http.route` attribute — the route is attached separately
by the middleware. -/
def httpServerRequestAttrs (serviceName : String) (r : HttpRequest) :
    List Attr :=
  [⟨"http.method", .str r.method⟩, ⟨"net.host.name", .str serviceName⟩]

/-- Modelled from the spec: `semconvutil.HTTPServerRequestMetrics`
(same missing package) is the "reduced attribute set for metrics (no
high-cardinality fields such as full URL)". -/
def httpServerRequestMetricsAttrs (serviceName : String)
    (r : HttpRequest) : List Attr :=
  [⟨"http.method", .str r.method⟩, ⟨"net.host.name", .str serviceName⟩]

/-- Modelled from the spec: `semconvutil.HTTPServerStatus` (same missing
package) maps the final numeric status code to a span status: server
errors (5xx) and out-of-range codes are span errors, everything else
leaves the status unset. -/
def httpServerStatus (status : Int) : SpanStatusCode × String :=
  if status < 100 ∨ 600 ≤ status then (.error, "Invalid HTTP status code")
  else if 500 ≤ status then (.error, "")
  else (.unset, "")

/-- The header-size part of `calcReqSize` (gintrace.go): for every
header, the name length plus 2 (colon and space) plus the lengths of all
its values. -/
def headerSize (headers : List (String × List String)) : Nat :=
  (headers.map fun kv =>
    kv.1.length + 2 + (kv.2.map String.length).sum).sum

/-- `calcReqSize` (gintrace.go): read the request body; on a read error
abort the request with an HTTP 500 JSON response and return 0; otherwise
restore the body and return header size plus body length.  Returns the
size together with the emitted effects. -/
def calcReqSize (c : GinContext) : Nat × List HEffect :=
  match c.request.bodyRead with
  | .error _ => (0, [HEffect.abortWithStatusJSON 500])
  | .ok body => (headerSize c.request.headers + body.length, [])

/-- The `gin.errors` attribute attached when the downstream handler
recorded errors (gintrace.go); gin's `Errors.String()` joins the
messages. -/
def ginErrorsAttr (errors : List String) : Attr :=
  ⟨"gin.errors", .str (String.intercalate "\n" errors)⟩

/-- The span name chosen in `Tracing` (gintrace.go) before the
route-not-found fallback: the formatter's verdict when one is
configured, else the matched full path. -/
def rawSpanName (cfg : Config) (c : GinContext) : String :=
  match cfg.SpanNameFormatter with
  | none => c.fullPath
  | some f => f c.request

/-- One pass of the `Tracing` middleware handler (gintrace.go) over a
request, as the ordered list of effects it emits.  `elapsedMs` is the
measured wall-clock duration of the downstream handler in milliseconds
(environmental input).  An ordered filter rejection short-circuits to a
bare `c.Next()`. -/
def runTracing (serviceName : String) (cfg : Config) (c : GinContext)
    (elapsedMs : ℚ) : List HEffect :=
  if ¬ (cfg.Filters.all fun f => f c.request) then
    [HEffect.callNext]
  else
    let httpTraceAttrs := httpServerRequestAttrs serviceName c.request
    let metricAttrs0 := httpServerRequestMetricsAttrs serviceName c.request
    let spanName0 := rawSpanName cfg c
    let spanName :=
      if spanName0 = "" then "HTTP " ++ c.request.method ++ " route not found"
      else spanName0
    let routeAttrs : List Attr :=
      if spanName0 = "" then [] else [⟨"http.route", .str spanName0⟩]
    let spanAttrs := httpTraceAttrs ++ routeAttrs
    let metricAttrs1 := metricAttrs0 ++ routeAttrs
    let size := calcReqSize c
    let respSize := if c.writerSize < 0 then 0 else c.writerSize
    let st := c.writerStatus
    let statusPair := httpServerStatus st
    let statusAttrs : List Attr :=
      if 0 < st then [⟨"http.status_code", .int st⟩] else []
    let errorAttrs : List Attr :=
      if c.ginErrors = [] then [] else [ginErrorsAttr c.ginErrors]
    let metricAttrs2 := metricAttrs1 ++ statusAttrs ++ errorAttrs
    [HEffect.ctxSet "kgs-tracer", HEffect.ctxSet "kgs-meter",
     HEffect.propagatorExtract,
     HEffect.spanStart spanName spanAttrs] ++
    size.2 ++
    [HEffect.callNext,
     HEffect.spanSetStatus statusPair.1 statusPair.2,
     HEffect.counterAdd httpReqSizeName (size.1 : Int) metricAttrs1,
     HEffect.counterAdd httpRespSizeName respSize metricAttrs1] ++
    (if 0 < st then [HEffect.spanSetAttrs [⟨"http.status_code", .int st⟩]]
     else []) ++
    (if c.ginErrors = [] then []
     else [HEffect.spanSetAttrs [ginErrorsAttr c.ginErrors]]) ++
    [HEffect.histRecord httpReqDurationName elapsedMs metricAttrs2,
     HEffect.counterAdd httpActiveReqsName 1 metricAttrs2,
     HEffect.spanEnd]

/-- Number of `spanStart` effects in an HTTP trace. -/
def countHSpanStart (es : List HEffect) : Nat :=
  es.countP fun e =>
    match e with
    | .spanStart _ _ => true
    | _ => false

/-- Number of metric-sample effects (counter adds and histogram
records) in an HTTP trace. -/
def countHMetricSamples (es : List HEffect) : Nat :=
  es.countP fun e =>
    match e with
    | .counterAdd _ _ _ => true
    | .histRecord _ _ _ => true
    | _ => false

/-- The attributes carried by an HTTP effect (empty for effects that
carry none). -/
def heffectAttrs : HEffect → List Attr
  | .spanStart _ attrs => attrs
  | .spanSetAttrs attrs => attrs
  | .counterAdd _ _ attrs => attrs
  | .histRecord _ _ attrs => attrs
  | _ => []

/-- Whether any effect in a trace carries an attribute with the given
key (on the span or on a metric sample). -/
def mentionsAttrKey (key : String) (es : List HEffect) : Bool :=
  es.any fun e => (heffectAttrs e).any fun a => a.key == key

end Gin

namespace Propagation

/-!
Modelled from the spec: the Context Propagation Codec.  `initPropagator`
(telemetry.go, present in the sources) installs
`propagation.NewCompositeTextMapPropagator(propagation.TraceContext{},
propagation.Baggage{})`; the codec implementation itself
(`propagation.TraceContext` / `propagation.Baggage` and the otelgrpc
`extract` / `inject` wrappers) is not among the extracted sources.  Per
the spec: "extract(carrier) -> context: parses a composite format —
trace-context (trace id, span id, sampling flag) plus baggage (arbitrary
key→value pairs) — from a string-keyed carrier; missing or malformed
fields yield an empty/root context, never an error.  inject(context,
carrier): writes the current trace context and baggage into an outgoing
carrier; no-op if the context carries no active span."  The trace
context is serialized in the W3C `traceparent` layout
`00-<32 hex trace id>-<16 hex span id>-<2 hex flags>`.
-/

/-- The hex character for one digit (0–15): `0`–`9` then `a`–`f`. -/
def hexDigitChar (n : Nat) : Char :=
  if n < 10 then Char.ofNat (48 + n) else Char.ofNat (87 + n)

/-- The value of one hex character, if it is a lowercase hex digit. -/
def hexDigitVal (c : Char) : Option Nat :=
  if 48 ≤ c.toNat ∧ c.toNat ≤ 57 then some (c.toNat - 48)
  else if 97 ≤ c.toNat ∧ c.toNat ≤ 102 then some (c.toNat - 87)
  else none

/-- Fixed-width big-endian hex encoding of a natural number. -/
def encodeHex : Nat → Nat → List Char
  | 0, _ => []
  | w + 1, n => encodeHex w (n / 16) ++ [hexDigitChar (n % 16)]

/-- Big-endian hex decoding; `none` on any non-hex character. -/
def decodeHex (cs : List Char) : Option Nat :=
  cs.foldl
    (fun acc c =>
      match acc, hexDigitVal c with
      | some a, some d => some (a * 16 + d)
      | _, _ => none)
    (some 0)

/-- A span context: trace id (16 bytes), span id (8 bytes), sampling
flag.  A context is only active when both ids are nonzero. -/
structure SpanContext where
  traceId : Nat
  spanId : Nat
  sampled : Bool
deriving DecidableEq

/-- A call context as the codec sees it: the active span context (if
any) plus the baggage key→value pairs. -/
structure Ctx where
  span : Option SpanContext
  baggage : List (String × String)

/-- A string-keyed carrier (header map); `set` replaces any previous
value for the key, `get` finds the first. -/
def carrierSet (carrier : List (String × String)) (key value : String) :
    List (String × String) :=
  (key, value) :: carrier.filter fun kv => kv.1 ≠ key

/-- Look up a key in a carrier. -/
def carrierGet (carrier : List (String × String)) (key : String) :
    Option String :=
  (carrier.find? fun kv => kv.1 = key).map Prod.snd

/-- Serialize one baggage list member as `key=value`. -/
def encodeBaggageMember (kv : String × String) : String :=
  kv.1 ++ "=" ++ kv.2

/-- Serialize the baggage as comma-joined `key=value` members. -/
def encodeBaggage (baggage : List (String × String)) : String :=
  String.intercalate "," (baggage.map encodeBaggageMember)

/-- Parse one baggage member; members without an `=` are dropped. -/
def decodeBaggageMember (s : String) : Option (String × String) :=
  match s.splitOn "=" with
  | [k, v] => some (k, v)
  | _ => none

/-- Parse a baggage header value. -/
def decodeBaggage (s : String) : List (String × String) :=
  (s.splitOn ",").filterMap decodeBaggageMember

/-- The `traceparent` header value for a span context. -/
def traceparentValue (sc : SpanContext) : String :=
  String.mk
    (['0', '0', '-'] ++ encodeHex 32 sc.traceId ++
     ['-'] ++ encodeHex 16 sc.spanId ++
     ['-'] ++ encodeHex 2 (if sc.sampled then 1 else 0))

/-- Parse a `traceparent` header value; malformed input, a bad version,
or an all-zero trace or span id yields `none`. -/
def parseTraceparentChars (cs : List Char) : Option SpanContext :=
  match cs with
  | '0' :: '0' :: '-' :: rest =>
      let tid := rest.take 32
      match rest.drop 32 with
      | '-' :: rest2 =>
          let sid := rest2.take 16
          match rest2.drop 16 with
          | '-' :: fl =>
              if tid.length = 32 ∧ sid.length = 16 ∧ fl.length = 2 then
                match decodeHex tid, decodeHex sid, decodeHex fl with
                | some t, some sp, some f =>
                    if t ≠ 0 ∧ sp ≠ 0 then
                      some ⟨t, sp, f % 2 = 1⟩
                    else none
                | _, _, _ => none
              else none
          | _ => none
      | _ => none
  | _ => none

/-- Parse a `traceparent` header value (wrapper over the character
list). -/
def parseTraceparent (s : String) : Option SpanContext :=
  parseTraceparentChars s.data

/-- `inject`: write the trace context and baggage into the carrier;
no-op when the context carries no active span. -/
def inject (ctx : Ctx) (carrier : List (String × String)) :
    List (String × String) :=
  match ctx.span with
  | none => carrier
  | some sc =>
      carrierSet
        (carrierSet carrier "traceparent" (traceparentValue sc))
        "baggage" (encodeBaggage ctx.baggage)

/-- `extract`: parse the composite format from the carrier; missing or
malformed fields yield an empty/root context. -/
def extract (carrier : List (String × String)) : Ctx :=
  { span :=
      match carrierGet carrier "traceparent" with
      | some v => parseTraceparent v
      | none => none
    baggage :=
      match carrierGet carrier "baggage" with
      | some v => decodeBaggage v
      | none => [] }

end Propagation

/-! ## Theorems -/

open Grpc Gin Propagation

/-- Claim C4 counterexample: the claim's instrument names
`{protocol}.{R}.request.duration` and `{protocol}.{R}.request.body.size`
/ `.response.body.size` do not match the names `newConfig` actually
builds for the RPC middleware. -/
theorem c4_counterexample_rpc_names_differ :
    rpcDurationName .server ≠ specClaimedRpcDurationName .server ∧
    rpcRequestSizeName .server ≠ specClaimedRpcRequestSizeName .server ∧
    rpcResponseSizeName .server ≠ specClaimedRpcResponseSizeName .server := by
  refine ⟨?_, ?_, ?_⟩ <;> decide

/-- Claim C4 (amended): the middlewares create their metric instruments
under exactly these fixed names: for HTTP (server role only)
`http.server.request.duration`, `http.server.request.body.size`,
`http.server.response.body.size` and `http.server.active_requests`; for
RPC and each role R, `rpc.R.duration`, `rpc.R.request.size`,
`rpc.R.response.size`, `rpc.R.requests_per_rpc` and
`rpc.R.responses_per_rpc`. -/
theorem c4_metric_instrument_names :
    rpcDurationName .server = "rpc.server.duration" ∧
    rpcRequestSizeName .server = "rpc.server.request.size" ∧
    rpcResponseSizeName .server = "rpc.server.response.size" ∧
    rpcRequestsPerRPCName .server = "rpc.server.requests_per_rpc" ∧
    rpcResponsesPerRPCName .server = "rpc.server.responses_per_rpc" ∧
    rpcDurationName .client = "rpc.client.duration" ∧
    rpcRequestSizeName .client = "rpc.client.request.size" ∧
    rpcResponseSizeName .client = "rpc.client.response.size" ∧
    rpcRequestsPerRPCName .client = "rpc.client.requests_per_rpc" ∧
    rpcResponsesPerRPCName .client = "rpc.client.responses_per_rpc" ∧
    httpReqDurationName = "http.server.request.duration" ∧
    httpReqSizeName = "http.server.request.body.size" ∧
    httpRespSizeName = "http.server.response.body.size" ∧
    httpActiveReqsName = "http.server.active_requests" := by
  repeat constructor

/-- Claim C3: the server-role end-of-call classifier maps a terminal
error whose gRPC code is in {Unknown, DeadlineExceeded, Unimplemented,
Internal, Unavailable, DataLoss} to span status Error with the status
message, any other code to Unset with an empty message, and a nil
terminal error yields the OK status-code attribute, which the end hook
attaches to the span. -/
theorem c3_server_status_classifier (s : GrpcStatus) :
    (s.code ∈ serverErrorCodes → serverStatus s = (.error, s.message)) ∧
    (s.code ∉ serverErrorCodes → serverStatus s = (.unset, "")) ∧
    endRpcStatusAttr none = ⟨"rpc.grpc.status_code", .int 0⟩ ∧
    (∀ (g : Option GRPCContext) (mAttrs : List Attr) (bt et : Int),
      Effect.spanSetAttrs [endRpcStatusAttr none] ∈
        handleRPCSwitch .server g mAttrs (.rpcEnd bt et none)) := by
  obtain ⟨c, m⟩ := s
  refine ⟨?_, ?_, rfl, ?_⟩
  · intro h
    cases c <;> simp_all [serverErrorCodes, serverStatus]
  · intro h
    cases c <;> simp_all [serverErrorCodes, serverStatus]
  · intro g mAttrs bt et
    cases g <;>
      simp [handleRPCSwitch, endSpanStatusEffects]

/-- Claim C3 witness: concrete instances of the classifier. -/
theorem c3_server_status_classifier_witness :
    serverStatus ⟨.internal, "boom"⟩ = (.error, "boom") ∧
    serverStatus ⟨.notFound, "nf"⟩ = (.unset, "") := by
  exact ⟨(c3_server_status_classifier ⟨.internal, "boom"⟩).1 (by decide),
         (c3_server_status_classifier ⟨.notFound, "nf"⟩).2.1 (by decide)⟩

/-- Claim C1 (code bug): a server-role call with recording enabled that
receives five inbound payload events records an end-of-call
`requests_per_rpc` sample of 0, not 5 — `HandleRPC` contains no counter
increment on payload events (the `atomic.AddInt64` is commented out),
so the counters loaded at the end hook are always the zeros set at tag
time. -/
theorem c1_requests_per_rpc_sample_is_zero :
    intSamples (rpcRequestsPerRPCName .server)
      (runCall {} .server ⟨"/svc/method"⟩
        [.inPayload 10, .inPayload 10, .inPayload 10, .inPayload 10,
         .inPayload 10, .rpcEnd 0 1000000 none]) = [0] ∧
    intSamples (rpcResponsesPerRPCName .client)
      (runCall {} .client ⟨"/svc/method"⟩
        [.outPayload 10, .outPayload 10, .outPayload 10, .outPayload 10,
         .outPayload 10, .rpcEnd 0 1000000 none]) = [0] := by
  constructor <;> rfl

/-- `HandleRPC` never changes the per-call state: the source contains
no write to the `gRPCContext` (the counter increment is commented
out). -/
theorem handleRPC_preserves_state (role : Role) (g : Option GRPCContext)
    (rs : RPCStats) : (handleRPC role g rs).1 = g := by
  cases g with
  | none => rfl
  | some g₀ => by_cases h : g₀.record <;> simp [handleRPC, h]

/-- Folding one hook: the per-call state threads through unchanged. -/
theorem runHooks_cons (role : Role) (g : Option GRPCContext)
    (rs : RPCStats) (rest : List RPCStats) :
    runHooks role g (rs :: rest) =
      (handleRPC role g rs).2 ++ runHooks role g rest := by
  show (handleRPC role g rs).2 ++
      runHooks role (handleRPC role g rs).1 rest = _
  rw [handleRPC_preserves_state]

/-- `countSpanEnd` distributes over concatenation. -/
theorem countSpanEnd_append (a b : List Effect) :
    countSpanEnd (a ++ b) = countSpanEnd a + countSpanEnd b :=
  List.countP_append _ _ _

/-- `countSpanStart` distributes over concatenation. -/
theorem countSpanStart_append (a b : List Effect) :
    countSpanStart (a ++ b) = countSpanStart a + countSpanStart b :=
  List.countP_append _ _ _

/-- `countSamples` distributes over concatenation. -/
theorem countSamples_append (i : String) (a b : List Effect) :
    countSamples i (a ++ b) = countSamples i a + countSamples i b :=
  List.countP_append _ _ _

/-- The event switch ends the span exactly on the terminal event. -/
theorem countSpanEnd_handleRPCSwitch (role : Role)
    (g : Option GRPCContext) (mAttrs : List Attr) (rs : RPCStats) :
    countSpanEnd (handleRPCSwitch role g mAttrs rs) =
      if isEndEvent rs then 1 else 0 := by
  cases rs with
  | rpcEnd bt et err => cases err <;> cases g <;> cases role <;> rfl
  | inPayload len => cases g <;> rfl
  | outPayload len => cases g <;> rfl
  | outHeader nw => cases nw <;> rfl
  | begin => rfl
  | outTrailer => rfl

/-- The event switch records a duration sample exactly on the terminal
event. -/
theorem countDuration_handleRPCSwitch (role : Role)
    (g : Option GRPCContext) (mAttrs : List Attr) (rs : RPCStats) :
    countSamples (rpcDurationName role) (handleRPCSwitch role g mAttrs rs) =
      if isEndEvent rs then 1 else 0 := by
  cases rs with
  | rpcEnd bt et err => cases err <;> cases g <;> cases role <;> rfl
  | inPayload len => cases g <;> cases role <;> rfl
  | outPayload len => cases g <;> cases role <;> rfl
  | outHeader nw => cases nw <;> rfl
  | begin => rfl
  | outTrailer => rfl

/-- The event switch never starts a span. -/
theorem countSpanStart_handleRPCSwitch (role : Role)
    (g : Option GRPCContext) (mAttrs : List Attr) (rs : RPCStats) :
    countSpanStart (handleRPCSwitch role g mAttrs rs) = 0 := by
  cases rs with
  | rpcEnd bt et err => cases err <;> cases g <;> cases role <;> rfl
  | inPayload len => cases g <;> rfl
  | outPayload len => cases g <;> rfl
  | outHeader nw => cases nw <;> rfl
  | begin => rfl
  | outTrailer => rfl

/-- A single `HandleRPC` invocation ends the span exactly when the
event is terminal and the record flag does not force an early return. -/
theorem countSpanEnd_handleRPC (role : Role) (g : Option GRPCContext)
    (rs : RPCStats) :
    countSpanEnd (handleRPC role g rs).2 =
      if recordOf g then (if isEndEvent rs then 1 else 0) else 0 := by
  cases g with
  | none =>
      simpa [recordOf] using countSpanEnd_handleRPCSwitch role none [] rs
  | some g₀ =>
      unfold handleRPC
      by_cases h : g₀.record
      · simp [h, recordOf, countSpanEnd_handleRPCSwitch]
      · simp [h, recordOf, countSpanEnd]

/-- A single `HandleRPC` invocation records a duration sample exactly
when the event is terminal and no early return fires. -/
theorem countDuration_handleRPC (role : Role) (g : Option GRPCContext)
    (rs : RPCStats) :
    countSamples (rpcDurationName role) (handleRPC role g rs).2 =
      if recordOf g then (if isEndEvent rs then 1 else 0) else 0 := by
  cases g with
  | none =>
      simpa [recordOf] using countDuration_handleRPCSwitch role none [] rs
  | some g₀ =>
      unfold handleRPC
      by_cases h : g₀.record
      · simp [h, recordOf, countDuration_handleRPCSwitch]
      · simp [h, recordOf, countSamples]

/-- `HandleRPC` never starts a span. -/
theorem countSpanStart_handleRPC (role : Role) (g : Option GRPCContext)
    (rs : RPCStats) : countSpanStart (handleRPC role g rs).2 = 0 := by
  cases g with
  | none => simpa using countSpanStart_handleRPCSwitch role none [] rs
  | some g₀ =>
      unfold handleRPC
      by_cases h : g₀.record
      · simp [h, countSpanStart_handleRPCSwitch]
      · simp [h, countSpanStart]

/-- Over a whole hook sequence the span-end count is the number of
terminal events when recording, and zero when the record flag is
false. -/
theorem countSpanEnd_runHooks (role : Role) (g : Option GRPCContext)
    (events : List RPCStats) :
    countSpanEnd (runHooks role g events) =
      if recordOf g then events.countP isEndEvent else 0 := by
  induction events with
  | nil => cases g <;> simp [runHooks, countSpanEnd]
  | cons rs rest ih =>
      rw [runHooks_cons, countSpanEnd_append, countSpanEnd_handleRPC, ih,
        List.countP_cons]
      by_cases h : recordOf g <;> by_cases h2 : isEndEvent rs <;>
        simp [h, h2, Nat.add_comm]

/-- Over a whole hook sequence the duration-sample count is the number
of terminal events when recording, and zero when the record flag is
false. -/
theorem countDuration_runHooks (role : Role) (g : Option GRPCContext)
    (events : List RPCStats) :
    countSamples (rpcDurationName role) (runHooks role g events) =
      if recordOf g then events.countP isEndEvent else 0 := by
  induction events with
  | nil => cases g <;> simp [runHooks, countSamples]
  | cons rs rest ih =>
      rw [runHooks_cons, countSamples_append, countDuration_handleRPC, ih,
        List.countP_cons]
      by_cases h : recordOf g <;> by_cases h2 : isEndEvent rs <;>
        simp [h, h2, Nat.add_comm]

/-- The hook sequence never starts a span. -/
theorem countSpanStart_runHooks (role : Role) (g : Option GRPCContext)
    (events : List RPCStats) :
    countSpanStart (runHooks role g events) = 0 := by
  induction events with
  | nil => simp [runHooks, countSpanStart]
  | cons rs rest ih =>
      rw [runHooks_cons, countSpanStart_append, countSpanStart_handleRPC, ih]

/-- The tag hook starts exactly one span, ends none and records no
duration sample. -/
theorem tagRPC_effect_counts (cfg : Grpc.Config) (role : Role)
    (info : RPCTagInfo) :
    countSpanEnd (tagRPC cfg role info).2 = 0 ∧
    countSamples (rpcDurationName role) (tagRPC cfg role info).2 = 0 ∧
    countSpanStart (tagRPC cfg role info).2 = 1 := by
  cases role <;> exact ⟨rfl, rfl, rfl⟩

/-- The record flag stored at tag time is the filter verdict. -/
theorem tagRPC_record (cfg : Grpc.Config) (role : Role) (info : RPCTagInfo) :
    (tagRPC cfg role info).1.record = recordFlag cfg info := rfl

/-- Claim C2 counterexample: for a call whose filter sets the record
flag to false, the tag hook opens a span but the terminal end hook
returns early, so the span is never closed and no duration sample is
recorded. -/
theorem c2_counterexample_filtered_span_leaks :
    countSpanStart (runCall ({ Filter := some fun _ => false } : Grpc.Config) .server
      ⟨"/svc/method"⟩ [.rpcEnd 0 1000000 none]) = 1 ∧
    countSpanEnd (runCall ({ Filter := some fun _ => false } : Grpc.Config) .server
      ⟨"/svc/method"⟩ [.rpcEnd 0 1000000 none]) = 0 ∧
    countSamples (rpcDurationName .server)
      (runCall ({ Filter := some fun _ => false } : Grpc.Config) .server
        ⟨"/svc/method"⟩ [.rpcEnd 0 1000000 none]) = 0 := by
  exact ⟨rfl, rfl, rfl⟩

/-- Claim C2 (amended): the tag hook opens exactly one span for every
call.  When the record flag is true at tag time, the span is closed
exactly once at the terminal end hook and exactly one duration sample is
recorded.  When the per-call filter sets the record flag to false, every
hook after tag returns early: the span is never closed and no duration
sample is recorded. -/
theorem c2_span_close_and_duration_by_record_flag (cfg : Grpc.Config)
    (role : Role) (info : RPCTagInfo) (events : List RPCStats)
    (h1 : events.countP isEndEvent = 1) :
    countSpanStart (runCall cfg role info events) = 1 ∧
    (recordFlag cfg info = true →
      countSpanEnd (runCall cfg role info events) = 1 ∧
      countSamples (rpcDurationName role) (runCall cfg role info events) = 1) ∧
    (recordFlag cfg info = false →
      countSpanEnd (runCall cfg role info events) = 0 ∧
      countSamples (rpcDurationName role) (runCall cfg role info events) = 0) := by
  obtain ⟨ht1, ht2, ht3⟩ := tagRPC_effect_counts cfg role info
  have hrec : recordOf (some (tagRPC cfg role info).1) = recordFlag cfg info :=
    tagRPC_record cfg role info
  have hrc : runCall cfg role info events =
      (tagRPC cfg role info).2 ++
        runHooks role (some (tagRPC cfg role info).1) events := rfl
  rw [hrc, countSpanStart_append, countSpanEnd_append, countSamples_append,
    countSpanEnd_runHooks, countDuration_runHooks, countSpanStart_runHooks,
    hrec, ht1, ht2, ht3, h1]
  refine ⟨rfl, ?_, ?_⟩
  · intro h
    rw [h]
    exact ⟨rfl, rfl⟩
  · intro h
    rw [h]
    exact ⟨rfl, rfl⟩

/-- Claim C2 witness: a concrete unfiltered unary call has its span
closed once with one duration sample. -/
theorem c2_span_close_witness :
    countSpanEnd (runCall {} .server ⟨"/svc/method"⟩
      [.rpcEnd 0 1000000 none]) = 1 ∧
    countSamples (rpcDurationName .server)
      (runCall {} .server ⟨"/svc/method"⟩ [.rpcEnd 0 1000000 none]) = 1 :=
  (c2_span_close_and_duration_by_record_flag {} .server ⟨"/svc/method"⟩
    [.rpcEnd 0 1000000 none] (by rfl)).2.1 rfl

/-- Claim C5 counterexample: the end hook invoked with a context
carrying no Call Context is not a no-op: it still records a duration
metric sample and ends the span found in the context. -/
theorem c5_counterexample_end_hook_not_noop :
    countSamples (rpcDurationName .server)
      (handleRPC .server none (.rpcEnd 0 2000000 none)).2 = 1 ∧
    countSpanEnd (handleRPC .server none (.rpcEnd 0 2000000 none)).2 = 1 := by
  exact ⟨rfl, rfl⟩

/-- Claim C5 (amended): with no Call Context, the begin, trailer and
payload hooks emit nothing (in particular no message-size sample), and
the per-RPC message-count histograms are skipped at the end hook; but
the end hook is not a no-op: it still ends the span found in the context
and records exactly one duration sample. -/
theorem c5_missing_call_context_behaviour (role : Role) (len : Int)
    (bt et : Int) (err : Option GrpcStatus) :
    (handleRPC role none .begin).2 = [] ∧
    (handleRPC role none (.inPayload len)).2 = [] ∧
    (handleRPC role none (.outPayload len)).2 = [] ∧
    (handleRPC role none .outTrailer).2 = [] ∧
    countSamples (rpcRequestsPerRPCName role)
      (handleRPC role none (.rpcEnd bt et err)).2 = 0 ∧
    countSamples (rpcResponsesPerRPCName role)
      (handleRPC role none (.rpcEnd bt et err)).2 = 0 ∧
    countSpanEnd (handleRPC role none (.rpcEnd bt et err)).2 = 1 ∧
    countSamples (rpcDurationName role)
      (handleRPC role none (.rpcEnd bt et err)).2 = 1 := by
  refine ⟨rfl, rfl, rfl, rfl, ?_, ?_, ?_, ?_⟩ <;>
    cases err <;> cases role <;> rfl

/-- On a filter rejection the handler short-circuits to `c.Next()`. -/
theorem runTracing_filtered (serviceName : String) (cfg : Gin.Config)
    (c : GinContext) (elapsedMs : ℚ)
    (h : (cfg.Filters.all fun f => f c.request) = false) :
    runTracing serviceName cfg c elapsedMs = [HEffect.callNext] := by
  unfold runTracing
  rw [if_pos]
  simp [h]

/-- Claim C6: an HTTP request rejected by a configured request filter
is passed straight to the next handler with zero spans opened and zero
metric samples recorded. -/
theorem c6_filtered_http_request_passthrough (serviceName : String)
    (cfg : Gin.Config) (c : GinContext) (elapsedMs : ℚ)
    (h : (cfg.Filters.all fun f => f c.request) = false) :
    runTracing serviceName cfg c elapsedMs = [HEffect.callNext] ∧
    countHSpanStart (runTracing serviceName cfg c elapsedMs) = 0 ∧
    countHMetricSamples (runTracing serviceName cfg c elapsedMs) = 0 := by
  have hrun := runTracing_filtered serviceName cfg c elapsedMs h
  exact ⟨hrun, by rw [hrun]; rfl, by rw [hrun]; rfl⟩

/-- Claim C6 witness: a concrete rejected request. -/
theorem c6_filtered_http_request_passthrough_witness :
    runTracing "svc" ({ Filters := [fun _ => false] } : Gin.Config)
      ⟨⟨"GET", [], .ok []⟩, "/version", 200, 5, []⟩ 1 =
      [HEffect.callNext] :=
  (c6_filtered_http_request_passthrough "svc"
    ({ Filters := [fun _ => false] } : Gin.Config)
    ⟨⟨"GET", [], .ok []⟩, "/version", 200, 5, []⟩ 1 rfl).1

/-- Claim C10: the middleware's behaviour is independent of the
configured `GinFilters`: `WithGinFilter` only appends to the
`GinFilters` list, and two configurations differing only in that list
produce identical instrumentation for the same request. -/
theorem c10_gin_filters_never_evaluated (serviceName : String)
    (cfg : Gin.Config) (gs fs : List (GinContext → Bool))
    (c : GinContext) (elapsedMs : ℚ) :
    runTracing serviceName { cfg with GinFilters := gs } c elapsedMs =
      runTracing serviceName cfg c elapsedMs ∧
    withGinFilter fs cfg =
      { cfg with GinFilters := cfg.GinFilters ++ fs } := by
  exact ⟨rfl, rfl⟩

/-- An abort effect appears in a middleware pass exactly when the
request passed the filters and the body read failed, and its status is
always 500. -/
theorem mem_abort_runTracing (serviceName : String) (cfg : Gin.Config)
    (c : GinContext) (elapsedMs : ℚ) (s : Int) :
    HEffect.abortWithStatusJSON s ∈ runTracing serviceName cfg c elapsedMs ↔
      ((cfg.Filters.all fun f => f c.request) = true ∧
        c.request.bodyReadFails = true ∧ s = 500) := by
  by_cases hall : (cfg.Filters.all fun f => f c.request) = true
  · cases hbody : c.request.bodyRead with
    | error e =>
        simp only [runTracing, hall, calcReqSize, hbody,
          HttpRequest.bodyReadFails, not_true, if_false, ite_false,
          Bool.not_eq_true]
        split_ifs <;>
          simp [HttpRequest.bodyReadFails, hbody, hall, eq_comm]
    | ok body =>
        simp only [runTracing, hall, calcReqSize, hbody,
          HttpRequest.bodyReadFails, Bool.not_eq_true]
        split_ifs <;>
          simp [HttpRequest.bodyReadFails, hbody, hall]
  · have h : (cfg.Filters.all fun f => f c.request) = false := by
      revert hall
      cases cfg.Filters.all fun f => f c.request <;> simp
    rw [runTracing_filtered serviceName cfg c elapsedMs h]
    simp [h]

/-- Claim C9: when reading the request body during size computation
fails, the middleware aborts the request with an HTTP 500
internal-error response and measures the size as 0 rather than silently
mis-measuring; and the abort (always with status 500) happens exactly
on a body-read failure, so it is the only user-visible instrumentation
failure. -/
theorem c9_body_read_failure_aborts (serviceName : String)
    (cfg : Gin.Config) (c : GinContext) (elapsedMs : ℚ) :
    (HEffect.abortWithStatusJSON 500 ∈ runTracing serviceName cfg c elapsedMs ↔
      ((cfg.Filters.all fun f => f c.request) = true ∧
        c.request.bodyReadFails = true)) ∧
    (∀ s : Int, HEffect.abortWithStatusJSON s ∈
        runTracing serviceName cfg c elapsedMs → s = 500) ∧
    (c.request.bodyReadFails = true → (calcReqSize c).1 = 0) := by
  refine ⟨?_, ?_, ?_⟩
  · rw [mem_abort_runTracing]
    simp
  · intro s hs
    exact ((mem_abort_runTracing serviceName cfg c elapsedMs s).1 hs).2.2
  · intro hb
    unfold calcReqSize
    unfold HttpRequest.bodyReadFails at hb
    cases h : c.request.bodyRead with
    | error e => rfl
    | ok body => rw [h] at hb; simp at hb

/-- Claim C9 witness: a concrete request whose body read fails is
aborted with HTTP 500. -/
theorem c9_body_read_failure_aborts_witness :
    HEffect.abortWithStatusJSON 500 ∈
      runTracing "svc" ({} : Gin.Config)
        ⟨⟨"POST", [], .error "read failed"⟩, "/version", 200, 5, []⟩ 1 :=
  (c9_body_read_failure_aborts "svc" ({} : Gin.Config)
    ⟨⟨"POST", [], .error "read failed"⟩, "/version", 200, 5, []⟩ 1).1.mpr
    ⟨rfl, rfl⟩

/-- Claim C8: with no configured span-name formatter and no matched
framework route (empty full path), the span is started with the literal
name `HTTP {method} route not found` and no `http.route` attribute is
attached to the span or to any metric attribute set. -/
theorem c8_route_not_found_fallback (serviceName : String)
    (cfg : Gin.Config) (c : GinContext) (elapsedMs : ℚ)
    (hf : cfg.SpanNameFormatter = none)
    (hp : c.fullPath = "")
    (hall : (cfg.Filters.all fun f => f c.request) = true) :
    HEffect.spanStart ("HTTP " ++ c.request.method ++ " route not found")
        (httpServerRequestAttrs serviceName c.request) ∈
      runTracing serviceName cfg c elapsedMs ∧
    mentionsAttrKey "http.route"
      (runTracing serviceName cfg c elapsedMs) = false := by
  have hraw : rawSpanName cfg c = "" := by
    simp [rawSpanName, hf, hp]
  constructor
  · simp [runTracing, hall, hraw]
  · cases hbody : c.request.bodyRead with
    | error e =>
        simp only [runTracing, hall, hraw, calcReqSize, hbody,
          Bool.not_eq_true, if_false]
        split_ifs <;>
          simp [mentionsAttrKey, heffectAttrs, httpServerRequestAttrs,
            httpServerRequestMetricsAttrs, ginErrorsAttr]
    | ok body =>
        simp only [runTracing, hall, hraw, calcReqSize, hbody,
          Bool.not_eq_true, if_false]
        split_ifs <;>
          simp [mentionsAttrKey, heffectAttrs, httpServerRequestAttrs,
            httpServerRequestMetricsAttrs, ginErrorsAttr]

/-- Claim C8 witness: a concrete GET request with no matched route. -/
theorem c8_route_not_found_fallback_witness :
    HEffect.spanStart "HTTP GET route not found"
        (httpServerRequestAttrs "svc" ⟨"GET", [], .ok []⟩) ∈
      runTracing "svc" ({} : Gin.Config)
        ⟨⟨"GET", [], .ok []⟩, "", 200, 5, []⟩ 1 :=
  (c8_route_not_found_fallback "svc" ({} : Gin.Config)
    ⟨⟨"GET", [], .ok []⟩, "", 200, 5, []⟩ 1 rfl rfl rfl).1

/-- Encoding then decoding one hex digit is the identity below 16. -/
theorem hexDigitVal_hexDigitChar :
    ∀ n < 16, hexDigitVal (hexDigitChar n) = some n := by
  decide

/-- Fixed-width hex encoding produces exactly `w` characters. -/
theorem encodeHex_length (w : Nat) : ∀ n : Nat, (encodeHex w n).length = w := by
  induction w with
  | zero => intro n; rfl
  | succ w ih => intro n; simp [encodeHex, ih]

/-- Decoding after appending one character folds that character in. -/
theorem decodeHex_append_digit (cs : List Char) (c : Char) :
    decodeHex (cs ++ [c]) =
      match decodeHex cs, hexDigitVal c with
      | some a, some d => some (a * 16 + d)
      | _, _ => none := by
  simp [decodeHex, List.foldl_append]

/-- Hex decoding inverts fixed-width hex encoding modulo `16 ^ w`. -/
theorem decodeHex_encodeHex (w : Nat) :
    ∀ n : Nat, decodeHex (encodeHex w n) = some (n % 16 ^ w) := by
  induction w with
  | zero => intro n; simp [encodeHex, decodeHex, Nat.mod_one]
  | succ w ih =>
      intro n
      rw [encodeHex, decodeHex_append_digit, ih,
        hexDigitVal_hexDigitChar (n % 16) (Nat.mod_lt _ (by norm_num))]
      have h : (16 : Nat) ^ (w + 1) = 16 * 16 ^ w := by ring
      rw [h, Nat.mod_mul]
      exact congrArg some (by ring)

/-- Parsing inverts serialization at the character-list level, for
ids within their fixed widths and nonzero. -/
theorem parseTraceparentChars_roundtrip (t sp : Nat) (fl : Bool)
    (ht : t < 16 ^ 32) (hs : sp < 16 ^ 16) (ht0 : t ≠ 0) (hs0 : sp ≠ 0) :
    parseTraceparentChars
      ('0' :: '0' :: '-' ::
        (encodeHex 32 t ++ '-' ::
          (encodeHex 16 sp ++ '-' :: encodeHex 2 (if fl then 1 else 0)))) =
      some ⟨t, sp, fl⟩ := by
  have h32 := encodeHex_length 32 t
  have h16 := encodeHex_length 16 sp
  rw [parseTraceparentChars]
  simp only [List.take_left' h32, List.drop_left' h32]
  simp only [List.take_left' h16, List.drop_left' h16]
  simp only [h32, h16, encodeHex_length]
  simp only [decodeHex_encodeHex 32 t, decodeHex_encodeHex 16 sp,
    decodeHex_encodeHex 2 (if fl then 1 else 0),
    Nat.mod_eq_of_lt ht, Nat.mod_eq_of_lt hs]
  simp only [and_self, if_true, reduceIte]
  rw [if_pos ⟨ht0, hs0⟩]
  cases fl <;> rfl

/-- Parsing inverts serialization of a `traceparent` value. -/
theorem parseTraceparent_traceparentValue (sc : SpanContext)
    (ht : sc.traceId < 16 ^ 32) (hs : sc.spanId < 16 ^ 16)
    (ht0 : sc.traceId ≠ 0) (hs0 : sc.spanId ≠ 0) :
    parseTraceparent (traceparentValue sc) = some sc := by
  obtain ⟨t, sp, fl⟩ := sc
  have hform : (traceparentValue ⟨t, sp, fl⟩).data =
      '0' :: '0' :: '-' ::
        (encodeHex 32 t ++ '-' ::
          (encodeHex 16 sp ++ '-' :: encodeHex 2 (if fl then 1 else 0))) := by
    simp [traceparentValue]
  rw [parseTraceparent, hform]
  exact parseTraceparentChars_roundtrip t sp fl ht hs ht0 hs0

/-- Claim C7: for a context carrying an active (valid, in-range) span
context, injecting into an empty carrier and extracting back yields a
context with the same trace id and span id (and sampling flag) under
the composite trace-context + baggage codec. -/
theorem c7_extract_inject_roundtrip (ctx : Ctx) (sc : SpanContext)
    (hspan : ctx.span = some sc)
    (ht : sc.traceId < 16 ^ 32) (hs : sc.spanId < 16 ^ 16)
    (ht0 : sc.traceId ≠ 0) (hs0 : sc.spanId ≠ 0) :
    (extract (inject ctx [])).span = some sc := by
  have hinj : inject ctx [] =
      [("baggage", encodeBaggage ctx.baggage),
       ("traceparent", traceparentValue sc)] := by
    unfold inject
    rw [hspan]
    rfl
  have hget : carrierGet (inject ctx []) "traceparent" =
      some (traceparentValue sc) := by
    rw [hinj]
    rfl
  show (match carrierGet (inject ctx []) "traceparent" with
    | some v => parseTraceparent v
    | none => none) = some sc
  rw [hget]
  exact parseTraceparent_traceparentValue sc ht hs ht0 hs0


/-- Claim C7 witness: a concrete active span context round-trips. -/
theorem c7_extract_inject_roundtrip_witness :
    (extract (inject ⟨some ⟨3, 7, true⟩, [("tenant", "a")]⟩ [])).span =
      some ⟨3, 7, true⟩ :=
  c7_extract_inject_roundtrip ⟨some ⟨3, 7, true⟩, [("tenant", "a")]⟩
    ⟨3, 7, true⟩ rfl (by norm_num) (by norm_num) (by norm_num) (by norm_num)

end KgsOtel
